import Mathlib

/-!
Verification development for the HEX web scraper core
(static / async / JS scraping backends).

The extraction engine, retry pipeline and pagination loop of
`src/scraper/static_scraper.py`, `src/scraper/async_scraper.py` and
`src/scraper/js_scraper.py` are embedded shallowly.  External libraries
(BeautifulSoup / soupsieve selector queries, Selenium element queries,
urllib.parse.urljoin, the tenacity retry decorator) are modelled by small
executable Lean functions; everything written by the repository itself is
translated statement by statement from the Python source.
-/

/-- Model of a parsed HTML element (a BeautifulSoup `Tag` / Selenium
`WebElement`): tag name, attribute list, the element's text content, and
child elements. -/
inductive Elem where
  | mk (tag : String) (attrs : List (String × String)) (text : String)
       (children : List Elem)

/-- Tag name of an element. -/
def Elem.tag : Elem → String
  | .mk t _ _ _ => t

/-- Attribute list of an element. -/
def Elem.attrs : Elem → List (String × String)
  | .mk _ a _ _ => a

/-- Raw text content of an element. -/
def Elem.text : Elem → String
  | .mk _ _ s _ => s

/-- Child elements. -/
def Elem.children : Elem → List Elem
  | .mk _ _ _ cs => cs

/-- Model of BeautifulSoup `Tag.get(attr)` / attribute lookup with no
default: the first value bound to the attribute name, if any. -/
def Elem.getAttr (e : Elem) (name : String) : Option String :=
  (e.attrs.find? (fun p => p.1 == name)).map (·.2)

/-- Model of BeautifulSoup `Tag.get(attr, default)`: the attribute's value
or the default when the attribute is absent. -/
def Elem.getD (e : Elem) (name dflt : String) : String :=
  (e.getAttr name).getD dflt

/-- Python `str.strip()`: drop leading and trailing whitespace. -/
def pyStrip (s : String) : String :=
  ((s.toList.dropWhile Char.isWhitespace).reverse.dropWhile
    Char.isWhitespace).reverse.asString

/-- Model of `get_text(strip=True)` (BeautifulSoup) and `.text.strip()`
(Selenium): the element's text content, trimmed. -/
def Elem.getTextStrip (e : Elem) : String :=
  pyStrip e.text

mutual

/-- All descendants of an element in document (preorder) order.
BeautifulSoup's `element.select` searches descendants of `element`,
never `element` itself. -/
def Elem.descendants : Elem → List Elem
  | .mk _ _ _ cs => descendantsList cs

/-- Preorder listing of a forest: each root followed by its descendants. -/
def descendantsList : List Elem → List Elem
  | [] => []
  | c :: rest => c :: c.descendants ++ descendantsList rest

end

/-- The fragment of CSS selectors the model supports: a bare tag name or a
single class selector. -/
inductive CssSel where
  | tagSel (t : String)
  | classSel (c : String)

/-- Characters allowed in a modelled CSS identifier. -/
def isSelIdentChar (c : Char) : Bool :=
  c.isAlphanum || c == '-' || c == '_'

/-- Model of soupsieve's selector compilation: `".name"` is a class
selector and a bare identifier is a tag selector; anything else (the empty
string, `"["`, ...) is malformed and compilation fails, as
`SelectorSyntaxError` does in soupsieve. -/
def parseCssSel (s : String) : Option CssSel :=
  match s.toList with
  | [] => none
  | '.' :: cs =>
      if !cs.isEmpty && cs.all isSelIdentChar then some (.classSel cs.asString)
      else none
  | cs =>
      if cs.all isSelIdentChar then some (.tagSel cs.asString) else none

/-- Split a character list at every occurrence of a separator character. -/
def splitChar (sep : Char) : List Char → List (List Char)
  | [] => [[]]
  | c :: rest =>
      let r := splitChar sep rest
      if c = sep then [] :: r
      else
        match r with
        | [] => [[c]]
        | w :: ws => (c :: w) :: ws

/-- Whether one element matches a compiled selector.  A class selector
matches when the name occurs in the space-separated `class` attribute. -/
def CssSel.matchesElem : CssSel → Elem → Bool
  | .tagSel t, e => e.tag == t
  | .classSel c, e =>
      ((splitChar ' ' (e.getD "class" "").toList).map List.asString).contains c

/-- Model of BeautifulSoup `element.select(selector)` (and of Selenium
`element.find_elements(By.CSS_SELECTOR, selector)`): all matching
descendants in document order, or an error when the selector string is
malformed. -/
def Elem.select (e : Elem) (s : String) : Except String (List Elem) :=
  match parseCssSel s with
  | none => .error ("SelectorSyntaxError: " ++ s)
  | some sel => .ok (e.descendants.filter (sel.matchesElem ·))

/-- A record field value: a single string or an ordered list of strings
(`item_data[field_name]` in the Python source); `none` models a Python
`None` stored by Selenium's `get_attribute` when the attribute is absent. -/
inductive Value where
  | str (s : String)
  | strs (l : List String)
  | none
deriving DecidableEq, Repr

/-- One extracted record: the `item_data` dict, insertion-ordered. -/
def Record := List (String × Value)

/-- A field selector as it appears in the `fields` mapping: either a plain
string (`isinstance(selector, str)`) or a dict (`isinstance(selector,
dict)`) with optional `"attr"` and `"selector"` keys. -/
inductive FieldSel where
  | simple (sel : String)
  | dict (attr : Option String) (selector : Option String)

/-- The `selectors` configuration mapping: optional `"item"` key and
optional `"fields"` mapping (insertion-ordered). -/
structure Selectors where
  item : Option String
  fields : Option (List (String × FieldSel))

namespace StaticScraper

/-- Per-field body of `StaticScraper.extract_data`
(src/scraper/static_scraper.py lines 74-100): the handling of one
`(field_name, selector)` pair against one item `element`.  A selector
error from `element.select` propagates (the Python body has no
try/except here). -/
def extract_field (element : Elem) (selector : FieldSel) :
    Except String Value :=
  match selector with
  | .simple sel => do
      let elements ← element.select sel
      match elements with
      | [] => pure (.str "")
      | [e] => pure (.str e.getTextStrip)
      | es => pure (.strs (es.map (·.getTextStrip)))
  | .dict a s =>
      let attr := a.getD "text"
      let css_selector := s.getD ""
      do
        let elements ← element.select css_selector
        match elements with
        | [] => pure (.str "")
        | e :: _ =>
            if attr = "text" then pure (.str e.getTextStrip)
            else pure (.str (e.getD attr ""))

/-- `StaticScraper.extract_data` (src/scraper/static_scraper.py lines
61-104): select all item containers with `selectors.get("item", "")`,
then build one record per item by evaluating every field selector of
`selectors.get("fields", {})` scoped to that item element.  Any selector
error anywhere propagates out of the method. -/
def extract_data (soup : Elem) (selectors : Selectors) :
    Except String (List Record) := do
  let item_selector := selectors.item.getD ""
  let field_selectors := selectors.fields.getD []
  let item_elements ← soup.select item_selector
  item_elements.mapM (fun element =>
    field_selectors.mapM (fun fs => do
      let v ← extract_field element fs.2
      pure (fs.1, v)))

end StaticScraper

namespace AsyncScraper

/-- Per-field body of `AsyncScraper.extract_data`
(src/scraper/async_scraper.py lines 100-126); textually identical to the
static backend's. -/
def extract_field (element : Elem) (selector : FieldSel) :
    Except String Value :=
  match selector with
  | .simple sel => do
      let elements ← element.select sel
      match elements with
      | [] => pure (.str "")
      | [e] => pure (.str e.getTextStrip)
      | es => pure (.strs (es.map (·.getTextStrip)))
  | .dict a s =>
      let attr := a.getD "text"
      let css_selector := s.getD ""
      do
        let elements ← element.select css_selector
        match elements with
        | [] => pure (.str "")
        | e :: _ =>
            if attr = "text" then pure (.str e.getTextStrip)
            else pure (.str (e.getD attr ""))

/-- `AsyncScraper.extract_data` (src/scraper/async_scraper.py lines
87-130); textually identical to `StaticScraper.extract_data`. -/
def extract_data (soup : Elem) (selectors : Selectors) :
    Except String (List Record) := do
  let item_selector := selectors.item.getD ""
  let field_selectors := selectors.fields.getD []
  let item_elements ← soup.select item_selector
  item_elements.mapM (fun element =>
    field_selectors.mapM (fun fs => do
      let v ← extract_field element fs.2
      pure (fs.1, v)))

end AsyncScraper

namespace JSScraper

/-- The try-block body of one field extraction in `JSScraper.extract_data`
(src/scraper/js_scraper.py lines 106-130).  Selenium `get_attribute`
yields Python `None` (`Value.none`) when the attribute is absent. -/
def extract_field_try (element : Elem) (selector : FieldSel) :
    Except String Value :=
  match selector with
  | .simple sel => do
      let elements ← element.select sel
      match elements with
      | [] => pure (.str "")
      | [e] => pure (.str e.getTextStrip)
      | es => pure (.strs (es.map (·.getTextStrip)))
  | .dict a s =>
      let attr := a.getD "text"
      let css_selector := s.getD ""
      do
        let elements ← element.select css_selector
        match elements with
        | [] => pure (.str "")
        | e :: _ =>
            if attr = "text" then pure (.str e.getTextStrip)
            else
              match e.getAttr attr with
              | some v => pure (.str v)
              | none => pure .none

/-- One field extraction in `JSScraper.extract_data` including its
`except` clause (src/scraper/js_scraper.py lines 105-133): any failure is
logged as a warning and the field resolves to the empty string. -/
def extract_field (element : Elem) (selector : FieldSel) : Value :=
  match extract_field_try element selector with
  | .ok v => v
  | .error _ => .str ""

/-- `JSScraper.extract_data` (src/scraper/js_scraper.py lines 84-137):
wait for the item selector (a timeout, i.e. zero matches within the wait,
returns the empty item list; a malformed selector raises out of the
wait), then build one record per item element; field failures are caught
per field. -/
def extract_data (doc : Elem) (selectors : Selectors) :
    Except String (List Record) := do
  let item_selector := selectors.item.getD ""
  let field_selectors := selectors.fields.getD []
  let item_elements ← doc.select item_selector
  pure (item_elements.map (fun element =>
    field_selectors.map (fun fs => (fs.1, extract_field element fs.2))))

end JSScraper

/-- Split a character list at the first occurrence of a separator
sequence, when present. -/
def breakOnSeq (sep : List Char) : List Char → Option (List Char × List Char)
  | [] => if sep.isEmpty then some ([], []) else none
  | c :: rest =>
      if sep.isPrefixOf (c :: rest) then some ([], (c :: rest).drop sep.length)
      else
        match breakOnSeq sep rest with
        | some (pre, post) => some (c :: pre, post)
        | none => none

/-- Scheme-and-host part of a URL (up to, excluding, the first `/` after
`"://"`), used by the `urljoin` model. -/
def urlHost (u : String) : String :=
  match breakOnSeq "://".toList u.toList with
  | some (scheme, rest) =>
      (scheme ++ "://".toList ++ rest.takeWhile (· ≠ '/')).asString
  | none => u

/-- Directory part of a URL: everything up to and including the last `/`
of its path, used by the `urljoin` model. -/
def urlDir (u : String) : String :=
  match breakOnSeq "://".toList u.toList with
  | some (scheme, rest) =>
      let upToSlash := (rest.reverse.dropWhile (· ≠ '/')).reverse
      if upToSlash.isEmpty then (scheme ++ "://".toList ++ rest ++ ['/']).asString
      else (scheme ++ "://".toList ++ upToSlash).asString
  | none => u

/-- Model of `urllib.parse.urljoin(base, url)` (external library),
simplified to the cases the scraper exercises: an empty href keeps the
base, an absolute href replaces it, a root-relative href keeps the base's
scheme and host, and any other href replaces the base's last path
segment. -/
def urljoin (base url : String) : String :=
  if url = "" then base
  else if "http://".toList.isPrefixOf url.toList
       || "https://".toList.isPrefixOf url.toList then url
  else if url.toList.headD ' ' = '/' then urlHost base ++ url
  else urlDir base ++ url

/-- The `pagination` configuration mapping: optional `"next_selector"`
and `"next_url_template"` keys. -/
structure Pagination where
  next_selector : Option String
  next_url_template : Option String

/-- Python truthiness of an optional string (`None` and `""` are falsy). -/
def truthyStr : Option String → Bool
  | none => false
  | some s => s ≠ ""

namespace StaticScraper

/-- `StaticScraper.get_next_page_url` (src/scraper/static_scraper.py
lines 106-123): when a truthy `next_selector` is configured, query it
with `select_one` (a malformed selector raises); when the first match
has a truthy `href`, return it joined against the current URL.  In every
other case — including when only `next_url_template` is configured,
which merely logs a warning — return `None`. -/
def get_next_page_url (pagination : Pagination) (soup : Elem)
    (current_url : String) : Except String (Option String) := do
  if truthyStr pagination.next_selector then
    let found ← soup.select (pagination.next_selector.getD "")
    match found.head? with
    | some next_element =>
        if truthyStr (next_element.getAttr "href") then
          pure (some (urljoin current_url (next_element.getD "href" "")))
        else pure none
    | none => pure none
  else
    pure none

/-- Terminal status of one start path's pagination walk: the spec's
`Done` / `Failed`, plus `fuelOut` marking a walk still running when the
step budget is exhausted (the Python `while` loop has no such budget and
simply keeps running). -/
inductive WalkStatus where
  | done
  | failed
  | fuelOut
deriving DecidableEq, Repr

/-- The `while current_url:` pagination loop of `StaticScraper.scrape`
(src/scraper/static_scraper.py lines 134-147) for one start path, with
`fetch` standing for `self.fetch_page`.  Returns the list of URLs
fetched, the records accumulated, and the terminal status.  A raise from
fetch, extraction or next-URL derivation is caught by the `except` and
breaks the loop; records extracted before the raise are kept (the
`all_data.extend(data)` precedes `get_next_page_url`). -/
def walk_path (fetch : String → Except String Elem) (selectors : Selectors)
    (pagination : Pagination) :
    Nat → Option String → List String × List Record × WalkStatus
  | _, none => ([], [], .done)
  | fuel, some url =>
    if url = "" then ([], [], .done)
    else
      match fuel with
      | 0 => ([], [], .fuelOut)
      | fuel + 1 =>
        match fetch url with
        | .error _ => ([url], [], .failed)
        | .ok soup =>
          match extract_data soup selectors with
          | .error _ => ([url], [], .failed)
          | .ok data =>
            match get_next_page_url pagination soup url with
            | .error _ => ([url], data, .failed)
            | .ok next =>
              let rest := walk_path fetch selectors pagination fuel next
              (url :: rest.1, data ++ rest.2.1, rest.2.2)

/-- `StaticScraper.scrape` (src/scraper/static_scraper.py lines
125-149): walk every start path in order from `urljoin(base_url, path)`
and concatenate the records of all walks.  A failure inside one path's
loop only breaks that path's `while`; the `for` loop continues with the
next start path. -/
def scrape (fetch : String → Except String Elem) (base_url : String)
    (start_paths : List String) (selectors : Selectors)
    (pagination : Pagination) (fuel : Nat) : List Record :=
  (start_paths.map (fun path =>
    (walk_path fetch selectors pagination fuel
      (some (urljoin base_url path))).2.1)).flatten

end StaticScraper

namespace AsyncScraper

/-- `AsyncScraper.scrape_single_page` (src/scraper/async_scraper.py
lines 132-141): fetch and extract one URL; any exception is logged and
the page contributes the empty record list. -/
def scrape_single_page (fetch : String → Except String Elem)
    (url : String) (selectors : Selectors) : List Record :=
  match fetch url with
  | .error _ => []
  | .ok soup =>
    match extract_data soup selectors with
    | .error _ => []
    | .ok data => data

/-- `AsyncScraper.scrape` (src/scraper/async_scraper.py lines 143-163):
one `scrape_single_page` task per start URL; the aggregate is the
concatenation of all task results (no pagination in this backend). -/
def scrape (fetch : String → Except String Elem) (base_url : String)
    (start_paths : List String) (selectors : Selectors) : List Record :=
  ((start_paths.map (fun path => urljoin base_url path)).map
    (fun url => scrape_single_page fetch url selectors)).flatten

end AsyncScraper

/-- Observable events of one `fetch_page` call: the explicit
`time.sleep(delay)` in the method body, the network request itself, and
the wait tenacity inserts between attempts. -/
inductive Event where
  | sleep (d : ℚ)
  | request (url : String)
  | backoff (d : ℚ)
deriving DecidableEq, Repr

/-- Model of tenacity's `wait_exponential(multiplier, min, max)` (external
library): after the failed attempt numbered `attempt_number` (attempts are
numbered from 1) the wait is `multiplier * 2 ** attempt_number`, clamped
below by `max(0, min)` and above by `max`. -/
def wait_exponential (multiplier mn mx : ℚ) (attempt_number : Nat) : ℚ :=
  max (max 0 mn) (min (multiplier * 2 ^ attempt_number) mx)

/-- The body of `StaticScraper.fetch_page` (src/scraper/static_scraper.py
lines 40-59) for one attempt: compute `delay = delay_seconds`, add the
jitter draw when jitter is enabled, sleep, then issue the request, whose
outcome `transport` supplies (a non-2xx status or connection error is an
error; `raise_for_status` and the re-raise in the `except` make it
propagate to the retry decorator).  The user-agent rotation touches no
state this model observes.  `AsyncScraper.fetch_page`
(src/scraper/async_scraper.py lines 63-85) has the same body shape. -/
def fetch_page_body (delay_seconds : ℚ) (jitter : Bool) (draw : ℚ)
    (url : String) (transport : Except String Elem) :
    List Event × Except String Elem :=
  let delay := if jitter then delay_seconds + draw else delay_seconds
  ([.sleep delay, .request url], transport)

/-- Model of tenacity's retry driver (external library): run the action
for the attempt numbered `attempt`; on success stop, on failure either
re-run after the configured wait or, when the remaining attempt budget is
exhausted, surface a `RetryError`.  The first argument is the number of
attempts still allowed (`stop_after_attempt`). -/
def tenacity_go (action : Nat → List Event × Except String Elem)
    (wait : Nat → ℚ) :
    Nat → Nat → List Event × Except String Elem
  | 0, _ => ([], .error "RetryError")
  | 1, attempt =>
      let r := action attempt
      match r.2 with
      | .ok d => (r.1, .ok d)
      | .error _ => (r.1, .error "RetryError")
  | n + 2, attempt =>
      let r := action attempt
      match r.2 with
      | .ok d => (r.1, .ok d)
      | .error _ =>
          let rest := tenacity_go action wait (n + 1) (attempt + 1)
          (r.1 ++ Event.backoff (wait attempt) :: rest.1, rest.2)

/-- `@retry(stop=stop_after_attempt(n), wait=w)` applied to an action:
attempts are numbered from 1. -/
def tenacity_retry (stop_after : Nat) (wait : Nat → ℚ)
    (action : Nat → List Event × Except String Elem) :
    List Event × Except String Elem :=
  tenacity_go action wait stop_after 1

namespace StaticScraper

/-- `StaticScraper.fetch_page` (src/scraper/static_scraper.py lines
37-59): the body under
`@retry(stop=stop_after_attempt(3), wait=wait_exponential(multiplier=1,
min=4, max=10))`.  `transport` gives each attempt's network outcome and
`draws` each attempt's `random.uniform(0, 1)` jitter draw. -/
def fetch_page (delay_seconds : ℚ) (jitter : Bool) (draws : Nat → ℚ)
    (url : String) (transport : Nat → Except String Elem) :
    List Event × Except String Elem :=
  tenacity_retry 3 (wait_exponential 1 4 10)
    (fun attempt =>
      fetch_page_body delay_seconds jitter (draws attempt) url
        (transport attempt))

end StaticScraper

/-- The `rate_limit` configuration mapping. -/
structure RateLimit where
  delay_seconds : Option ℚ
  jitter : Option Bool

/-- The slice of the configuration the rate-limit initialisation reads. -/
structure Config where
  rate_limit : Option RateLimit

/-- `ConfigLoader.get_nested("rate_limit", "delay_seconds")`
(src/scraper/config_loader.py lines 58-66): the nested value, or `None`
when any key along the path is missing. -/
def Config.get_nested_delay (c : Config) : Option ℚ :=
  c.rate_limit.bind (·.delay_seconds)

/-- Python's `x or d` for an optional numeric `x`: `d` when `x` is `None`
or zero (falsy), else `x`. -/
def pyOrNum (v : Option ℚ) (d : ℚ) : ℚ :=
  match v with
  | none => d
  | some x => if x = 0 then d else x

/-- `self.delay_seconds = config.get_nested("rate_limit",
"delay_seconds") or 1.0` in `StaticScraper.__init__`
(src/scraper/static_scraper.py line 28). -/
def StaticScraper.init_delay_seconds (c : Config) : ℚ :=
  pyOrNum c.get_nested_delay 1

/-- The same initialisation in `AsyncScraper.__init__`
(src/scraper/async_scraper.py line 28). -/
def AsyncScraper.init_delay_seconds (c : Config) : ℚ :=
  pyOrNum c.get_nested_delay 1

/-- The same initialisation in `JSScraper.__init__`
(src/scraper/js_scraper.py line 32). -/
def JSScraper.init_delay_seconds (c : Config) : ℚ :=
  pyOrNum c.get_nested_delay 1

/-!  Concrete documents, schemas and configurations used by witnesses and
counterexamples. -/

/-- The spec's §8 scenario item: `<div class="item"><div class="title">
Test Title</div></div>` (with padding whitespace in the text node). -/
def sampleItem : Elem :=
  .mk "div" [("class", "item")] ""
    [.mk "div" [("class", "title")] " Test Title " []]

/-- A document holding `sampleItem`. -/
def sampleDoc : Elem := .mk "html" [] "" [sampleItem]

/-- The spec's §8 scenario schema `{item: ".item", fields: {title: ".title"}}`. -/
def sampleSels : Selectors := ⟨some ".item", some [("title", .simple ".title")]⟩

/-- A schema whose item selector matches nothing in `sampleDoc`. -/
def noMatchSels : Selectors :=
  ⟨some ".missing", some [("title", .simple ".title")]⟩

/-- An item holding one `.t` child with padded text. -/
def fieldErrItem : Elem :=
  .mk "div" [("class", "item")] "" [.mk "span" [("class", "t")] " x " []]

/-- A document holding `fieldErrItem`. -/
def fieldErrDoc : Elem := .mk "html" [] "" [fieldErrItem]

/-- A schema whose first field selector is the malformed `"["` and whose
second field selector is well-formed. -/
def fieldErrSels : Selectors :=
  ⟨some ".item", some [("title", .simple "["), ("other", .simple ".t")]⟩

/-- A page whose `.next` link's href is the page's own URL. -/
def selfLinkDoc : Elem :=
  .mk "html" [] ""
    [.mk "a" [("class", "next"), ("href", "http://e.com/a")] "" []]

/-- Pagination configured with the `.next` selector only. -/
def nextPagination : Pagination := ⟨some ".next", none⟩

/-- A schema with an item selector and no fields. -/
def emptyFieldsSels : Selectors := ⟨some ".item", some []⟩

/-- A minimal parsed document, used as a transport stub's response. -/
def emptyDoc : Elem := .mk "html" [] "" []

/-- C9: `StaticScraper.extract_data` and `AsyncScraper.extract_data`
denote the same extraction function: on every parsed document and every
selectors mapping the two backends return identical record sequences. -/
theorem async_extract_data_eq_static (soup : Elem) (sels : Selectors) :
    AsyncScraper.extract_data soup sels = StaticScraper.extract_data soup sels :=
  rfl

/-- C5: when the item selector matches zero elements in the document,
`extract_data` (static and async backends) returns the empty record
sequence and no error. -/
theorem extract_data_no_items_empty (soup : Elem) (sels : Selectors)
    (h : soup.select (sels.item.getD "") = .ok []) :
    StaticScraper.extract_data soup sels = .ok [] ∧
    AsyncScraper.extract_data soup sels = .ok [] := by
  constructor <;> (simp only [StaticScraper.extract_data,
    AsyncScraper.extract_data, h]; rfl)

/-- Witness for C5: on `sampleDoc` with the non-matching item selector
`.missing`, both backends extract the empty sequence. -/
theorem extract_data_no_items_empty_witness :
    StaticScraper.extract_data sampleDoc noMatchSels = .ok [] ∧
    AsyncScraper.extract_data sampleDoc noMatchSels = .ok [] :=
  extract_data_no_items_empty sampleDoc noMatchSels rfl

/-- C1: `extract_data` evaluates every field selector scoped to the
matched item root, and per record: a `Simple` (string) selector yields
the single match's trimmed text, the ordered list of the N trimmed texts
when N > 1 elements match, and the empty string when nothing matches; an
`Attributed` (dict) selector yields the first match's named attribute
(its trimmed text when the attribute is `"text"`), with the empty string
both when nothing matches and when the attribute is absent on the
matched element. -/
theorem extract_data_field_selector_semantics (soup : Elem)
    (sels : Selectors) (items : List Elem)
    (hitems : soup.select (sels.item.getD "") = .ok items) :
    (StaticScraper.extract_data soup sels =
      items.mapM (fun element =>
        (sels.fields.getD []).mapM (fun fs => do
          let v ← StaticScraper.extract_field element fs.2
          pure (fs.1, v)))) ∧
    (∀ (element : Elem) (sel : String) (e : Elem),
      element.select sel = .ok [e] →
      StaticScraper.extract_field element (.simple sel) =
        .ok (.str e.getTextStrip)) ∧
    (∀ (element : Elem) (sel : String) (e1 e2 : Elem) (es : List Elem),
      element.select sel = .ok (e1 :: e2 :: es) →
      StaticScraper.extract_field element (.simple sel) =
        .ok (.strs ((e1 :: e2 :: es).map (·.getTextStrip)))) ∧
    (∀ (element : Elem) (sel : String),
      element.select sel = .ok [] →
      StaticScraper.extract_field element (.simple sel) = .ok (.str "")) ∧
    (∀ (element : Elem) (a : Option String) (s : Option String) (e : Elem)
      (es : List Elem), a.getD "text" = "text" →
      element.select (s.getD "") = .ok (e :: es) →
      StaticScraper.extract_field element (.dict a s) =
        .ok (.str e.getTextStrip)) ∧
    (∀ (element : Elem) (attr : String) (s : Option String) (e : Elem)
      (es : List Elem), attr ≠ "text" →
      element.select (s.getD "") = .ok (e :: es) →
      StaticScraper.extract_field element (.dict (some attr) s) =
        .ok (.str (e.getD attr ""))) ∧
    (∀ (element : Elem) (a : Option String) (s : Option String),
      element.select (s.getD "") = .ok [] →
      StaticScraper.extract_field element (.dict a s) = .ok (.str "")) ∧
    (∀ (e : Elem) (attr : String), e.getAttr attr = none →
      e.getD attr "" = "") := by
  refine ⟨?_, ?_, ?_, ?_, ?_, ?_, ?_, ?_⟩
  · simp only [StaticScraper.extract_data, hitems]; rfl
  · intro element sel e h
    simp only [StaticScraper.extract_field, h]; rfl
  · intro element sel e1 e2 es h
    simp only [StaticScraper.extract_field, h]; rfl
  · intro element sel h
    simp only [StaticScraper.extract_field, h]; rfl
  · intro element a s e es ha h
    simp only [StaticScraper.extract_field, ha, h]; rfl
  · intro element attr s e es ha h
    simp only [StaticScraper.extract_field, h, Option.getD_some, if_neg ha]
    rfl
  · intro element a s h
    simp only [StaticScraper.extract_field, h]; rfl
  · intro e attr h
    simp [Elem.getD, h]

/-- Witness for C1: on the spec's §8 scenario the extraction yields
`[{"title": "Test Title"}]`. -/
theorem extract_data_field_selector_semantics_witness :
    StaticScraper.extract_data sampleDoc sampleSels =
      .ok [[("title", Value.str "Test Title")]] := by
  have h := extract_data_field_selector_semantics sampleDoc sampleSels
    [sampleItem] rfl
  rw [h.1]; rfl

/-- C2 (code bug): at a schema whose first field selector is the
malformed `"["`, `StaticScraper.extract_data` propagates the selector
error and aborts the whole extraction — no record is produced for the
matched item and the remaining fields are never evaluated — while
`JSScraper.extract_data`, whose per-field try/except implements the
specified behavior, resolves the failing field to the empty string and
still returns one record with the remaining fields populated. -/
theorem static_field_error_aborts_extraction :
    StaticScraper.extract_data fieldErrDoc fieldErrSels =
      .error "SelectorSyntaxError: [" ∧
    JSScraper.extract_data fieldErrDoc fieldErrSels =
      .ok [[("title", Value.str ""), ("other", Value.str "x")]] :=
  ⟨rfl, rfl⟩

/-- C4 (counterexample): a page whose `.next` link resolves to the
page's own URL makes the walker fetch the same URL twice in one run —
the fetched-URL list of the walk is not duplicate-free. -/
theorem walk_path_refetches_same_url :
    (StaticScraper.walk_path (fun _ => .ok selfLinkDoc) emptyFieldsSels
      nextPagination 2 (some "http://e.com/a")).1 =
      ["http://e.com/a", "http://e.com/a"] ∧
    ¬ (StaticScraper.walk_path (fun _ => .ok selfLinkDoc) emptyFieldsSels
      nextPagination 2 (some "http://e.com/a")).1.Nodup := by
  have h : (StaticScraper.walk_path (fun _ => .ok selfLinkDoc)
      emptyFieldsSels nextPagination 2 (some "http://e.com/a")).1 =
      ["http://e.com/a", "http://e.com/a"] := rfl
  exact ⟨h, by rw [h]; simp⟩

/-- C4 (amended): the pagination loop of one start path terminates
exactly when the current URL becomes absent (or empty) or the iteration
raises — a fetch failure ends the path as `Failed`; a successful page
whose derived next URL is `None` ends it as `Done`; a successful page
with a derived next URL continues the walk at that URL, with no revisit
protection of any kind. -/
theorem walk_path_termination_conditions
    (fetch : String → Except String Elem) (sels : Selectors)
    (pag : Pagination) (fuel : Nat) (url : String) (soup : Elem)
    (data : List Record) (hurl : url ≠ "") :
    (∀ n, StaticScraper.walk_path fetch sels pag n none = ([], [], .done)) ∧
    (fetch url = .ok soup →
      StaticScraper.extract_data soup sels = .ok data →
      StaticScraper.get_next_page_url pag soup url = .ok none →
      StaticScraper.walk_path fetch sels pag (fuel + 1) (some url) =
        ([url], data, .done)) ∧
    (∀ e, fetch url = .error e →
      StaticScraper.walk_path fetch sels pag (fuel + 1) (some url) =
        ([url], [], .failed)) ∧
    (∀ next, fetch url = .ok soup →
      StaticScraper.extract_data soup sels = .ok data →
      StaticScraper.get_next_page_url pag soup url = .ok (some next) →
      StaticScraper.walk_path fetch sels pag (fuel + 1) (some url) =
        (url :: (StaticScraper.walk_path fetch sels pag fuel (some next)).1,
         data ++ (StaticScraper.walk_path fetch sels pag fuel (some next)).2.1,
         (StaticScraper.walk_path fetch sels pag fuel (some next)).2.2)) := by
  refine ⟨fun n => by cases n <;> rfl, fun hf he hn => ?_, fun e hf => ?_,
    fun next hf he hn => ?_⟩
  · simp [StaticScraper.walk_path, hurl, hf, he, hn]
  · simp [StaticScraper.walk_path, hurl, hf]
  · simp [StaticScraper.walk_path, hurl, hf, he, hn]

/-- Witness for C4 (amended): with no pagination configured, one start
URL is fetched once and the walk ends `Done` with the page's records. -/
theorem walk_path_termination_conditions_witness :
    StaticScraper.walk_path (fun _ => .ok sampleDoc) sampleSels
      ⟨none, none⟩ 5 (some "http://e.com/") =
      (["http://e.com/"], [[("title", Value.str "Test Title")]], .done) := by
  have h := walk_path_termination_conditions (fun _ => .ok sampleDoc)
    sampleSels ⟨none, none⟩ 4 "http://e.com/" sampleDoc
    [[("title", Value.str "Test Title")]] (by decide)
  exact h.2.1 rfl rfl rfl

/-- Reduction of an `Except` bind at a success value (helper). -/
theorem except_bind_ok {α β ε : Type} (a : α) (f : α → Except ε β) :
    (Except.ok a : Except ε α) >>= f = f a := rfl

/-- C6: when the configured next selector matches nothing on the fetched
page — and likewise when only a `next_url_template` is configured, since
URL-template pagination derives no next URL — the walk for that start
path halts in the `Done` state after exactly one fetch; and when the
next selector does match an element with a non-empty href, the derived
next URL is that href resolved against the current URL. -/
theorem next_selector_no_match_halts_after_one_fetch
    (fetch : String → Except String Elem) (sels : Selectors) (fuel : Nat)
    (url : String) (soup : Elem) (data : List Record) (sel t : String)
    (hurl : url ≠ "") (hf : fetch url = .ok soup)
    (he : StaticScraper.extract_data soup sels = .ok data) :
    (∀ pag : Pagination, pag.next_selector = some sel → sel ≠ "" →
      soup.select sel = .ok [] →
      StaticScraper.walk_path fetch sels pag (fuel + 1) (some url) =
        ([url], data, .done)) ∧
    (StaticScraper.walk_path fetch sels ⟨none, some t⟩ (fuel + 1)
      (some url) = ([url], data, .done)) ∧
    (∀ (el : Elem) (more : List Elem) (href : String), sel ≠ "" →
      soup.select sel = .ok (el :: more) → el.getAttr "href" = some href →
      href ≠ "" →
      StaticScraper.get_next_page_url ⟨some sel, none⟩ soup url =
        .ok (some (urljoin url href))) := by
  refine ⟨fun pag hps hsel hnm => ?_, ?_,
    fun el more href hsel hm hhref hh => ?_⟩
  · have hn : StaticScraper.get_next_page_url pag soup url = .ok none := by
      simp [StaticScraper.get_next_page_url, hps, truthyStr, hsel, hnm,
        except_bind_ok]
      rfl
    simp [StaticScraper.walk_path, hurl, hf, he, hn]
  · have hn : StaticScraper.get_next_page_url ⟨none, some t⟩ soup url =
        .ok none := by
      simp [StaticScraper.get_next_page_url, truthyStr]; rfl
    simp [StaticScraper.walk_path, hurl, hf, he, hn]
  · simp [StaticScraper.get_next_page_url, truthyStr, hsel, hm, hhref, hh,
      Elem.getD, except_bind_ok]
    rfl

/-- Witness for C6: with a `.next` selector that matches nothing in
`sampleDoc`, the walk fetches one URL and ends `Done`. -/
theorem next_selector_no_match_halts_after_one_fetch_witness :
    StaticScraper.walk_path (fun _ => .ok sampleDoc) sampleSels
      nextPagination 3 (some "http://e.com/") =
      (["http://e.com/"], [[("title", Value.str "Test Title")]], .done) := by
  have h := next_selector_no_match_halts_after_one_fetch
    (fun _ => .ok sampleDoc) sampleSels 2 "http://e.com/" sampleDoc
    [[("title", Value.str "Test Title")]] ".next" "page-2"
    (by decide) rfl rfl
  exact h.1 nextPagination rfl (by decide) rfl

/-- C7: a fetch failure on one start path terminates only that path's
walk (`Failed` after the failing fetch, keeping no records from it);
sibling start paths are still walked, nothing is raised past the session
boundary (the session functions are total), and the aggregate of the
remaining paths' records is returned — the same holds for the async
backend's per-URL tasks. -/
theorem fetch_failure_confined_to_path
    (fetch : String → Except String Elem) (base p : String)
    (rest : List String) (sels : Selectors) (pag : Pagination) (fuel : Nat)
    (e : String) (hfail : fetch (urljoin base p) = .error e)
    (hne : urljoin base p ≠ "") :
    (StaticScraper.walk_path fetch sels pag (fuel + 1)
      (some (urljoin base p)) = ([urljoin base p], [], .failed)) ∧
    (StaticScraper.scrape fetch base (p :: rest) sels pag (fuel + 1) =
      StaticScraper.scrape fetch base rest sels pag (fuel + 1)) ∧
    (AsyncScraper.scrape_single_page fetch (urljoin base p) sels = []) ∧
    (AsyncScraper.scrape fetch base (p :: rest) sels =
      AsyncScraper.scrape fetch base rest sels) := by
  have hw : StaticScraper.walk_path fetch sels pag (fuel + 1)
      (some (urljoin base p)) = ([urljoin base p], [], .failed) := by
    simp [StaticScraper.walk_path, hne, hfail]
  have hs : AsyncScraper.scrape_single_page fetch (urljoin base p)
      sels = [] := by
    simp [AsyncScraper.scrape_single_page, hfail]
  refine ⟨hw, ?_, hs, ?_⟩
  · simp [StaticScraper.scrape, hw]
  · simp [AsyncScraper.scrape, hs]

/-- Witness for C7: with two start paths of which the first always fails
to fetch, the session still returns the records of the second path. -/
theorem fetch_failure_confined_to_path_witness :
    StaticScraper.scrape
      (fun url => if url = "http://e.com/bad" then .error "boom"
        else .ok sampleDoc)
      "http://e.com" ["/bad", "/good"] sampleSels ⟨none, none⟩ 3 =
    StaticScraper.scrape
      (fun url => if url = "http://e.com/bad" then .error "boom"
        else .ok sampleDoc)
      "http://e.com" ["/good"] sampleSels ⟨none, none⟩ 3 := by
  have h := fetch_failure_confined_to_path
    (fun url => if url = "http://e.com/bad" then .error "boom"
      else .ok sampleDoc)
    "http://e.com" "/bad" ["/good"] sampleSels ⟨none, none⟩ 2 "boom"
    rfl (by decide)
  exact h.2.1

/-- C3: `fetch_page` retries a transport-level failure up to 3 total
attempts (the decorator's `stop_after_attempt(3)`, the spec's default
`retry_attempts`) with exponential backoff
`wait = multiplier * 2 ^ attempt` clamped to `[min, max]`; when the
transport fails exactly `k < 3` times and then succeeds, the parsed
document is returned with no error, and when it fails all 3 attempts the
fetch surfaces a failure to the caller. -/
theorem fetch_page_retry_contract (d : ℚ) (j : Bool) (draws : Nat → ℚ)
    (url : String) (transport : Nat → Except String Elem) (k : Nat)
    (doc : Elem) (hk : k < 3)
    (hfail : ∀ i, 1 ≤ i → i ≤ k → ∃ e, transport i = .error e)
    (hsucc : transport (k + 1) = .ok doc) :
    (StaticScraper.fetch_page d j draws url transport).2 = .ok doc ∧
    (∀ t2 : Nat → Except String Elem,
      (∀ i, 1 ≤ i → i ≤ 3 → ∃ e, t2 i = .error e) →
      (StaticScraper.fetch_page d j draws url t2).2 =
        .error "RetryError") ∧
    (∀ a : Nat, wait_exponential 1 4 10 a = max 4 (min (2 ^ a) 10)) := by
  refine ⟨?_, ?_, ?_⟩
  · interval_cases k
    · norm_num at hsucc
      simp [StaticScraper.fetch_page, tenacity_retry, tenacity_go,
        fetch_page_body, hsucc]
    · obtain ⟨e1, h1⟩ := hfail 1 (by norm_num) (by norm_num)
      norm_num at hsucc
      simp [StaticScraper.fetch_page, tenacity_retry, tenacity_go,
        fetch_page_body, h1, hsucc]
    · obtain ⟨e1, h1⟩ := hfail 1 (by norm_num) (by norm_num)
      obtain ⟨e2, h2⟩ := hfail 2 (by norm_num) (by norm_num)
      norm_num at hsucc
      simp [StaticScraper.fetch_page, tenacity_retry, tenacity_go,
        fetch_page_body, h1, h2, hsucc]
  · intro t2 h
    obtain ⟨e1, h1⟩ := h 1 (by norm_num) (by norm_num)
    obtain ⟨e2, h2⟩ := h 2 (by norm_num) (by norm_num)
    obtain ⟨e3, h3⟩ := h 3 (by norm_num) (by norm_num)
    simp [StaticScraper.fetch_page, tenacity_retry, tenacity_go,
      fetch_page_body, h1, h2, h3]
  · intro a
    have h4 : max (0 : ℚ) 4 = 4 := by norm_num
    simp [wait_exponential, h4, one_mul]

/-- Witness for C3: a transport failing once and then succeeding makes
`fetch_page` return the document with no error. -/
theorem fetch_page_retry_contract_witness :
    (StaticScraper.fetch_page 1 false (fun _ => 0) "http://e.com/"
      (fun i => if i = 1 then .error "boom" else .ok emptyDoc)).2 =
      .ok emptyDoc := by
  have h := fetch_page_retry_contract 1 false (fun _ => 0) "http://e.com/"
    (fun i => if i = 1 then .error "boom" else .ok emptyDoc) 1 emptyDoc
    (by norm_num)
    (fun i h1 h2 => ⟨"boom", by
      have hi : i = 1 := le_antisymm h2 h1
      subst hi; rfl⟩)
    rfl
  exact h.1

/-- C8: on every attempt of a `fetch_page` call, including each retry
attempt, the scraper sleeps for `base_delay_seconds` plus, when jitter
is enabled, a uniform random addend from `[0, 1)`, strictly before the
network request: the event trace never starts with a request, and every
request event is immediately preceded by such a sleep event. -/
theorem fetch_page_sleep_precedes_request (d : ℚ) (j : Bool)
    (draws : Nat → ℚ) (url : String)
    (transport : Nat → Except String Elem)
    (hdraws : ∀ a, 0 ≤ draws a ∧ draws a < 1) :
    (∀ u, ((StaticScraper.fetch_page d j draws url transport).1).head? ≠
      some (Event.request u)) ∧
    (∀ p ∈ ((StaticScraper.fetch_page d j draws url transport).1).zip
        ((StaticScraper.fetch_page d j draws url transport).1).tail,
      (∃ u, p.2 = Event.request u) →
      ∃ jv, 0 ≤ jv ∧ jv < 1 ∧
        p.1 = Event.sleep (if j then d + jv else d)) := by
  cases h1 : transport 1 with
  | ok doc =>
      simp only [StaticScraper.fetch_page, tenacity_retry, tenacity_go,
        fetch_page_body, h1]
      constructor
      · intro u; simp
      · intro p hp hreq
        simp only [List.zip, List.tail, List.zipWith, List.mem_cons,
          List.not_mem_nil, or_false] at hp
        subst hp
        exact ⟨draws 1, (hdraws 1).1, (hdraws 1).2, rfl⟩
  | error e1 =>
      cases h2 : transport 2 with
      | ok doc =>
          simp only [StaticScraper.fetch_page, tenacity_retry, tenacity_go,
            fetch_page_body, h1, h2]
          constructor
          · intro u; simp
          · intro p hp hreq
            simp only [List.zip, List.tail, List.zipWith, List.mem_cons,
              List.not_mem_nil, or_false] at hp
            rcases hp with hp | hp | hp | hp <;> subst hp <;>
              first
              | exact ⟨draws 1, (hdraws 1).1, (hdraws 1).2, rfl⟩
              | exact ⟨draws 2, (hdraws 2).1, (hdraws 2).2, rfl⟩
              | (obtain ⟨u, hu⟩ := hreq; simp at hu)
      | error e2 =>
          cases h3 : transport 3 with
          | ok doc =>
              simp only [StaticScraper.fetch_page, tenacity_retry,
                tenacity_go, fetch_page_body, h1, h2, h3]
              constructor
              · intro u; simp
              · intro p hp hreq
                simp only [List.zip, List.tail, List.zipWith,
                  List.mem_cons, List.not_mem_nil, or_false] at hp
                rcases hp with hp | hp | hp | hp | hp | hp | hp <;>
                  subst hp <;>
                  first
                  | exact ⟨draws 1, (hdraws 1).1, (hdraws 1).2, rfl⟩
                  | exact ⟨draws 2, (hdraws 2).1, (hdraws 2).2, rfl⟩
                  | exact ⟨draws 3, (hdraws 3).1, (hdraws 3).2, rfl⟩
                  | (obtain ⟨u, hu⟩ := hreq; simp at hu)
          | error e3 =>
              simp only [StaticScraper.fetch_page, tenacity_retry,
                tenacity_go, fetch_page_body, h1, h2, h3]
              constructor
              · intro u; simp
              · intro p hp hreq
                simp only [List.zip, List.tail, List.zipWith,
                  List.mem_cons, List.not_mem_nil, or_false] at hp
                rcases hp with hp | hp | hp | hp | hp | hp | hp <;>
                  subst hp <;>
                  first
                  | exact ⟨draws 1, (hdraws 1).1, (hdraws 1).2, rfl⟩
                  | exact ⟨draws 2, (hdraws 2).1, (hdraws 2).2, rfl⟩
                  | exact ⟨draws 3, (hdraws 3).1, (hdraws 3).2, rfl⟩
                  | (obtain ⟨u, hu⟩ := hreq; simp at hu)

/-- Witness for C8: a jittered fetch with constant draw 1/2 on a
successful transport satisfies both trace conditions. -/
theorem fetch_page_sleep_precedes_request_witness :
    (∀ u, ((StaticScraper.fetch_page 1 true (fun _ => 1/2) "http://e.com/"
      (fun _ => .ok emptyDoc)).1).head? ≠ some (Event.request u)) ∧
    (∀ p ∈ ((StaticScraper.fetch_page 1 true (fun _ => 1/2) "http://e.com/"
        (fun _ => .ok emptyDoc)).1).zip
        ((StaticScraper.fetch_page 1 true (fun _ => 1/2) "http://e.com/"
        (fun _ => .ok emptyDoc)).1).tail,
      (∃ u, p.2 = Event.request u) →
      ∃ jv, 0 ≤ jv ∧ jv < 1 ∧
        p.1 = Event.sleep (if true then 1 + jv else 1)) :=
  fetch_page_sleep_precedes_request 1 true (fun _ => 1/2) "http://e.com/"
    (fun _ => .ok emptyDoc) (fun _ => ⟨by norm_num, by norm_num⟩)

/-- C10: a configured `rate_limit.delay_seconds` of `0` (or a missing
value) is coerced by the constructors' `or 1.0` fallback to the default
`1.0` in all three backends, so a zero inter-request delay can never be
configured. -/
theorem zero_delay_coerced_to_default (c : Config) :
    (c.get_nested_delay = some 0 →
      StaticScraper.init_delay_seconds c = 1 ∧
      AsyncScraper.init_delay_seconds c = 1 ∧
      JSScraper.init_delay_seconds c = 1) ∧
    (c.get_nested_delay = Option.none →
      StaticScraper.init_delay_seconds c = 1 ∧
      AsyncScraper.init_delay_seconds c = 1 ∧
      JSScraper.init_delay_seconds c = 1) ∧
    StaticScraper.init_delay_seconds c ≠ 0 ∧
    AsyncScraper.init_delay_seconds c ≠ 0 ∧
    JSScraper.init_delay_seconds c ≠ 0 := by
  have key : ∀ v : Option ℚ, pyOrNum v 1 ≠ 0 := by
    intro v
    match v with
    | Option.none => simp [pyOrNum]
    | Option.some x => by_cases hx : x = 0 <;> simp [pyOrNum, hx]
  refine ⟨fun h => ?_, fun h => ?_, key _, key _, key _⟩ <;>
    simp [StaticScraper.init_delay_seconds, AsyncScraper.init_delay_seconds,
      JSScraper.init_delay_seconds, h, pyOrNum]

/-- Witness for C10: a configuration with `delay_seconds = 0` yields the
effective delay `1.0` in all three backends. -/
theorem zero_delay_coerced_to_default_witness :
    StaticScraper.init_delay_seconds ⟨some ⟨some 0, some false⟩⟩ = 1 ∧
    AsyncScraper.init_delay_seconds ⟨some ⟨some 0, some false⟩⟩ = 1 ∧
    JSScraper.init_delay_seconds ⟨some ⟨some 0, some false⟩⟩ = 1 :=
  (zero_delay_coerced_to_default ⟨some ⟨some 0, some false⟩⟩).1 rfl
